import Mathlib

/-!
Verification of the evalscript and request construction in
`Water_Quality_Visualization.ipynb` (Ulyssys Water Quality Viewer custom
script for Sentinel-2, plus the notebook's SentinelHubRequest).

The evalscript is JavaScript.  Its numeric computations are embedded over ℚ
(exact rational arithmetic in place of JS doubles).  The script's dynamic
behaviour at the `isWater` call site depends on JavaScript calling
conventions (a four-argument call of a five-parameter function leaves the
last parameter `undefined`), so a small model of JavaScript values `JsVal`
is used for the water/cloud classification functions; the rest of the
pipeline, whose values are statically numbers and arrays of numbers, is
embedded directly over ℚ and `List ℚ`, with `Option` marking values that
JavaScript would leave `undefined`.
-/

/-- A minimal model of the JavaScript values flowing through the script's
classification functions: `undefined`, `NaN`, finite numbers (as ℚ),
strings, arrays and plain objects. -/
inductive JsVal where
  | undef : JsVal
  | nan : JsVal
  | num (q : ℚ) : JsVal
  | str (s : String) : JsVal
  | arr (xs : List JsVal) : JsVal
  | obj (fields : List (String × JsVal)) : JsVal

/-- JavaScript property access `v[k]` / `v.k`: object field lookup, the
`length` of an array; any other access yields `undefined` (in particular
`length` of a number, and a named property of an array). -/
def jsGetProp (v : JsVal) (k : String) : JsVal :=
  match v with
  | JsVal.obj fields => (fields.lookup k).getD JsVal.undef
  | JsVal.arr xs => if k = "length" then JsVal.num (xs.length : ℚ) else JsVal.undef
  | _ => JsVal.undef

/-- JavaScript array indexing `v[i]` for a natural index; out-of-range or
non-array access yields `undefined`. -/
def jsIndex (v : JsVal) (i : ℕ) : JsVal :=
  match v with
  | JsVal.arr xs => (xs.get? i).getD JsVal.undef
  | _ => JsVal.undef

/-- JavaScript subtraction on the values reaching it here: number minus
number; any operand that is `undefined`/`NaN`/non-numeric gives `NaN`. -/
def jsSub (a b : JsVal) : JsVal :=
  match a, b with
  | JsVal.num x, JsVal.num y => JsVal.num (x - y)
  | _, _ => JsVal.nan

/-- JavaScript addition restricted to the numeric operands occurring in the
script (string concatenation is not used by the embedded calls). -/
def jsAdd (a b : JsVal) : JsVal :=
  match a, b with
  | JsVal.num x, JsVal.num y => JsVal.num (x + y)
  | _, _ => JsVal.nan

/-- JavaScript division on numeric operands; division by zero and
non-numeric operands are collapsed to `NaN` (JavaScript yields `±Infinity`
for a nonzero numerator over zero; no comparison in this development
reaches that case with a nonzero numerator). -/
def jsDiv (a b : JsVal) : JsVal :=
  match a, b with
  | JsVal.num x, JsVal.num y => if y = 0 then JsVal.nan else JsVal.num (x / y)
  | _, _ => JsVal.nan

/-- JavaScript `<`: true only for two finite numbers in order; any
comparison involving `undefined`/`NaN` is false. -/
def jsLt (a b : JsVal) : Bool :=
  match a, b with
  | JsVal.num x, JsVal.num y => decide (x < y)
  | _, _ => false

/-- JavaScript `>`. -/
def jsGt (a b : JsVal) : Bool :=
  jsLt b a

/-- JavaScript `>=`: true only for two finite numbers in order. -/
def jsGe (a b : JsVal) : Bool :=
  match a, b with
  | JsVal.num x, JsVal.num y => decide (y ≤ x)
  | _, _ => false

/-- JavaScript strict equality `===` on the values compared here. -/
def jsStrictEq (a b : JsVal) : Bool :=
  match a, b with
  | JsVal.num x, JsVal.num y => decide (x = y)
  | JsVal.str x, JsVal.str y => decide (x = y)
  | JsVal.undef, JsVal.undef => true
  | JsVal.nan, _ => false
  | _, _ => false

/-- JavaScript loose equality `==` against a non-numeric string literal
(`"ndwi"`, `"hol"`, `"bcy"`): only an equal string compares true; a number
would be compared with `NaN` (the numeric coercion of the literal) and
`undefined` is not loosely equal to any string. -/
def jsLooseEqStr (v : JsVal) (t : String) : Bool :=
  match v with
  | JsVal.str s => decide (s = t)
  | _ => false

/-- `getEval` of the script: `eval` applied to its first argument.  In this
version of the script the index containers hold already-computed values
(not strings), and `eval` of a non-string returns it unchanged, so the
function is the identity on its first argument (the `sample` parameter is
unused, as in the source). -/
def getEval (s : JsVal) : JsVal :=
  s

/-- One pixel of Sentinel-2 input, the bands requested by `setup()`. -/
structure Sample where
  B02 : ℚ
  B03 : ℚ
  B04 : ℚ
  B05 : ℚ
  B06 : ℚ
  B07 : ℚ
  B08 : ℚ
  B8A : ℚ
  B09 : ℚ
  B11 : ℚ

/-- The view of a sample as the JavaScript object handed around by the
script. -/
def sampleToJs (s : Sample) : JsVal :=
  JsVal.obj
    [("B02", JsVal.num s.B02), ("B03", JsVal.num s.B03), ("B04", JsVal.num s.B04),
     ("B05", JsVal.num s.B05), ("B06", JsVal.num s.B06), ("B07", JsVal.num s.B07),
     ("B08", JsVal.num s.B08), ("B8A", JsVal.num s.B8A), ("B09", JsVal.num s.B09),
     ("B11", JsVal.num s.B11)]

/-- `isPureWater(sample)`:
`sample.B03 < 0.319 && sample.B8A < 0.166 && sample.B03 - sample.B07 >= 0.027
 && sample.B09 - sample.B11 < 0.021` over JavaScript values (the argument it
receives at its live call site is not a sample object, so accesses may be
`undefined`). -/
def isPureWater (sample : JsVal) : Bool :=
  jsLt (jsGetProp sample "B03") (JsVal.num 0.319) &&
  jsLt (jsGetProp sample "B8A") (JsVal.num 0.166) &&
  jsGe (jsSub (jsGetProp sample "B03") (jsGetProp sample "B07")) (JsVal.num 0.027) &&
  jsLt (jsSub (jsGetProp sample "B09") (jsGetProp sample "B11")) (JsVal.num 0.021)

/-- `isCloud(sample, limit)`, the Braaten-Cohen-Yang test:
`const bRatio = (sample.B02 - 0.175) / (0.39 - 0.175);
 return bRatio > 1 || (bRatio > 0 && (sample.B04 - sample.B06) / (sample.B04 + sample.B06) > limit);` -/
def isCloud (sample limit : JsVal) : Bool :=
  let b := jsDiv (jsSub (jsGetProp sample "B02") (JsVal.num 0.175))
                 (jsSub (JsVal.num 0.39) (JsVal.num 0.175))
  jsGt b (JsVal.num 1) ||
    (jsGt b (JsVal.num 0) &&
      jsGt (jsDiv (jsSub (jsGetProp sample "B04") (jsGetProp sample "B06"))
                  (jsAdd (jsGetProp sample "B04") (jsGetProp sample "B06"))) limit)

/-- The body of the `for (let i = 0; i < selectedWatermaskIndices.length; i++)`
loop of `isWater`, with its three `break` cases; `fuel` is the remaining
number of iterations and `i` the current loop index. -/
def isWaterLoop (sample availableWatermaskIndices selectedWatermaskIndices waterMax cloudMax :
    JsVal) : ℕ → ℕ → Bool
  | _, 0 => true
  | i, fuel + 1 =>
    let wm := jsIndex selectedWatermaskIndices i
    if jsLooseEqStr wm "ndwi" &&
        jsLt (getEval (jsGetProp availableWatermaskIndices "ndwi")) waterMax then
      false
    else if jsLooseEqStr wm "hol" && !isPureWater sample then
      false
    else if jsLooseEqStr wm "bcy" && isCloud sample cloudMax then
      false
    else
      isWaterLoop sample availableWatermaskIndices selectedWatermaskIndices waterMax cloudMax
        (i + 1) fuel

/-- Number of iterations of a `for (let i = 0; i < v.length; i++)` loop:
`⌈q⌉` when `v.length` is the number `q` (an array length is a natural
number), and `0` when `v.length` is `undefined` or otherwise non-numeric
(the comparison `i < undefined` is false). -/
def jsLoopCount (v : JsVal) : ℕ :=
  match jsGetProp v "length" with
  | JsVal.num q => (Int.ceil q).toNat
  | _ => 0

/-- `isWater(sample, availableWatermaskIndices, selectedWatermaskIndices, waterMax, cloudMax)`
of the script, translated parameter-for-parameter. -/
def isWater (sample availableWatermaskIndices selectedWatermaskIndices waterMax cloudMax :
    JsVal) : Bool :=
  if jsStrictEq (jsGetProp selectedWatermaskIndices "length") (JsVal.num 0) then
    true
  else
    isWaterLoop sample availableWatermaskIndices selectedWatermaskIndices waterMax cloudMax
      0 (jsLoopCount selectedWatermaskIndices)

/-- The user parameters `PARAMS` of the script (null-able index choices as
`Option`). -/
structure Params where
  chlIndex : Option String
  tssIndex : Option String
  watermaskIndices : List String
  chlMin : ℚ
  chlMax : ℚ
  tssMin : ℚ
  tssMax : ℚ
  waterMax : ℚ
  cloudMax : ℚ
  foregroundOpacity : ℚ
  backgroundOpacity : ℚ

/-- The concrete `PARAMS` object of the notebook's script.  The
`foreground` and `background` entries, both the string `'default'`, are
modelled where they are consumed (`getValue`, `getBackground`). -/
def PARAMS : Params :=
  { chlIndex := some "default"
    tssIndex := some "default"
    watermaskIndices := ["ndwi", "hol"]
    chlMin := -0.005
    chlMax := 0.05
    tssMin := 0.075
    tssMax := 0.185
    waterMax := 0
    cloudMax := 0.02
    foregroundOpacity := 1
    backgroundOpacity := 1.0 }

/-- The `isWater` call exactly as `getValue` makes it:
`isWater(indices.watermask, params.watermaskIndices, params.waterMax, params.cloudMax)`.
The source passes FOUR arguments to the FIVE-parameter function, so the
arguments bind shifted: `sample` receives the watermask object,
`availableWatermaskIndices` the user's index-name array,
`selectedWatermaskIndices` the number `params.waterMax`, `waterMax` the
number `params.cloudMax`, and `cloudMax` is `undefined`. -/
def isWaterCall (params : Params) (sample : Sample) : Bool :=
  isWater
    (JsVal.obj [("ndwi",
      jsDiv (jsSub (JsVal.num sample.B03) (JsVal.num sample.B08))
            (jsAdd (JsVal.num sample.B03) (JsVal.num sample.B08)))])
    (JsVal.arr (params.watermaskIndices.map JsVal.str))
    (JsVal.num params.waterMax)
    (JsVal.num params.cloudMax)
    JsVal.undef

theorem isWaterCall_always_true (params : Params) (s : Sample) :
    isWaterCall params s = true := rfl

/-- The `chl` sub-object of `getIndices`. -/
structure ChlIndices where
  rlh : ℚ
  mci : ℚ

/-- The `tss` sub-object of `getIndices`. -/
structure TssIndices where
  b05 : ℚ

/-- The `watermask` sub-object of `getIndices`. -/
structure WatermaskIndices where
  ndwi : ℚ

/-- The object returned by `getIndices(sample)`. -/
structure Indices where
  natural : List ℚ
  chl : ChlIndices
  tss : TssIndices
  watermask : WatermaskIndices

/-- `getIndices(sample)` of the script, formula for formula (note the
parenthesisation of `rlh` in the source: `sample.B04` alone is multiplied
by `(0.705-0.665)*1000.0`).  `ndwi` uses rational division, which gives `0`
where JavaScript would give `NaN` (denominator zero); the `ndwi` value is
never consumed downstream. -/
def getIndices (sample : Sample) : Indices :=
  { natural := [2.5 * sample.B04, 2.5 * sample.B03, 2.5 * sample.B02]
    chl :=
      { rlh := sample.B05 - sample.B04 -
          (sample.B07 - sample.B04 * ((0.705 - 0.665) * 1000.0)) / ((0.783 - 0.665) * 1000.0)
        mci := sample.B05 - ((0.74 - 0.705) / (0.74 - 0.665)) * sample.B04 -
          (1.0 - (0.74 - 0.705) / (0.74 - 0.665)) * sample.B06 }
    tss := { b05 := sample.B05 }
    watermask := { ndwi := (sample.B03 - sample.B08) / (sample.B03 + sample.B08) } }

/-- The dynamic lookup `indices.chl[alg]`: `undefined` (`none`) for an
algorithm name other than `"rlh"`/`"mci"`. -/
def chlLookup (c : ChlIndices) (alg : String) : Option ℚ :=
  if alg = "rlh" then some c.rlh
  else if alg = "mci" then some c.mci
  else none

/-- The dynamic lookup `indices.tss[alg]`. -/
def tssLookup (t : TssIndices) (alg : String) : Option ℚ :=
  if alg = "b05" then some t.b05 else none

/-- `blend(layer1, layer2, opacity1, opacity2)` of the script:
`layer1.map(function (num, index) { return (num / 100) * opacity1 + (layer2[index] / 100) * opacity2; })`.
An out-of-range `layer2[index]` is read as `0` here where JavaScript would
give `NaN`; every use blends layers of equal length. -/
def blend (layer1 layer2 : List ℚ) (opacity1 opacity2 : ℚ) : List ℚ :=
  layer1.mapIdx fun index num => num / 100 * opacity1 + layer2.getD index 0 / 100 * opacity2

/-- `getAlpha(index, min, max)` of the script, branch for branch. -/
def getAlpha (index mn mx : ℚ) : ℚ :=
  if mn + (mx - mn) / 2 < index then 100
  else if index ≤ mn then 0
  else if mx ≤ index then 1
  else 100 * ((index - mn / 2) / (mx - mn))

/-- The path condition under which `getAlpha` executes its `return 1`
branch: the first guard false, `index <= min` false, `index >= max` true. -/
def getAlphaOneBranch (index mn mx : ℚ) : Prop :=
  ¬(mn + (mx - mn) / 2 < index) ∧ ¬(index ≤ mn) ∧ mx ≤ index

/-- Componentwise linear interpolation between two colors. -/
def lerpColor (c1 c2 : List ℚ) (t : ℚ) : List ℚ :=
  List.zipWith (fun a b => a + (b - a) * t) c1 c2

/-- Tail of `colorBlend`: walk the remaining position/color pairs keeping
the previous pair, interpolating in the first interval containing `val`,
and returning the last color when `val` lies beyond every position. -/
def colorBlendGo (val : ℚ) : ℚ → List ℚ → List ℚ → List (List ℚ) → List ℚ
  | _, cPrev, [], _ => cPrev
  | pPrev, cPrev, p :: ps, cs =>
    match cs with
    | [] => cPrev
    | c :: cs1 =>
      if val ≤ p then lerpColor cPrev c ((val - pPrev) / (p - pPrev))
      else colorBlendGo val p c ps cs1

/-- Modelled from the spec: the platform built-in `colorBlend` used by the
evalscript for "color-ramp blending" is not part of the repository; it is
modelled as piecewise-linear interpolation of the palette `colors` at the
given `positions` — the first color below the first position, the last
color beyond the last position, and componentwise linear interpolation in
between. -/
def colorBlend (val : ℚ) (positions : List ℚ) (colors : List (List ℚ)) : List ℚ :=
  match positions, colors with
  | p :: ps, c :: cs => if val ≤ p then c else colorBlendGo val p c ps cs
  | _, _ => []

/-- The palette type passed to `getColors` (both call sites pass the
literals `'chl'` and `'tss'`; the `default` switch branch of the source,
which would return `undefined`, is unreachable from them). -/
inductive PaletteType where
  | chl : PaletteType
  | tss : PaletteType
deriving DecidableEq

/-- `getColors(type, index, min, max)` of the script: the chlorophyll
palette over five positions, or the sediment palette over two (the fifth
argument forwarded at the chlorophyll call site is dropped by the
four-parameter source function). -/
def getColors : PaletteType → ℚ → ℚ → ℚ → List ℚ
  | PaletteType.chl, index, mn, mx =>
      colorBlend index
        [mn, mn + (mx - mn) / 3, (mn + mx) / 2, mx - (mx - mn) / 3, mx]
        [[0.0034, 0.0142, 0.163], [0, 0.416, 0.306], [0.486, 0.98, 0],
         [0.9465, 0.8431, 0.1048], [1, 0, 0]]
  | PaletteType.tss, index, mn, mx =>
      colorBlend index [mn, mx]
        [[0.961, 0.871, 0.702], [0.396, 0.263, 0.129]]

/-- `getStaticColor(colorArray)`: RGB 0-255 scaled to 0-1. -/
def getStaticColor (r g b : ℚ) : List ℚ :=
  [r / 255, g / 255, b / 255]

/-- The `foreground`/`background` parameter as consumed by
`getBackground`/`getForeground`: one of the recognised strings or a custom
RGB array. -/
inductive LayerSpec where
  | default : LayerSpec
  | natural : LayerSpec
  | black : LayerSpec
  | white : LayerSpec
  | custom (r g b : ℚ) : LayerSpec
deriving DecidableEq

/-- `getBackground(background, naturalIndex, opacity)` of the script.
`parseInt(opacity * 100)` is modelled as the floor (the opacities used are
non-negative). -/
def getBackground (background : LayerSpec) (naturalIndex : List ℚ) (opacity : ℚ) : List ℚ :=
  let alpha : ℚ := ((Rat.floor (opacity * 100) : ℤ) : ℚ)
  let backgroundLayer :=
    match background with
    | LayerSpec.default => naturalIndex
    | LayerSpec.natural => naturalIndex
    | LayerSpec.black => ([0, 0, 0] : List ℚ)
    | LayerSpec.white => ([1, 1, 1] : List ℚ)
    | LayerSpec.custom r g b => getStaticColor r g b
  let isRgb :=
    match background with
    | LayerSpec.default => true
    | LayerSpec.natural => true
    | _ => false
  if isRgb || opacity = 1 then backgroundLayer
  else blend backgroundLayer naturalIndex alpha (100 - alpha)

/-- `getForeground(foreground, backgroundLayer, naturalIndex, opacity)` of
the script.  For a non-`natural`, non-array foreground the source would
index a string and produce `NaN` components; that case (modelled as `[]`)
is unreachable: `getValue` only calls this function when the foreground is
not `'default'`, and the notebook's foreground is `'default'`. -/
def getForeground (foreground : LayerSpec) (backgroundLayer naturalIndex : List ℚ)
    (opacity : ℚ) : List ℚ :=
  let alpha : ℚ := ((Rat.floor (opacity * 100) : ℤ) : ℚ)
  let layer :=
    match foreground with
    | LayerSpec.natural => naturalIndex
    | LayerSpec.custom r g b => getStaticColor r g b
    | _ => ([] : List ℚ)
  if opacity = 1 then layer else blend layer backgroundLayer alpha (100 - alpha)

/-- The value returned by `getValue`: either one of the two early returns
(a bare layer array) or the final record
`{ rgb_value, chl_index, sed_index }`.  Fields that JavaScript would leave
`undefined` are `none`. -/
inductive GetValueResult where
  | layer (l : List ℚ) : GetValueResult
  | record (rgb_value : Option (List ℚ)) (chl_index : Option ℚ) (sed_index : Option ℚ) :
      GetValueResult

/-- The foreground choice of the notebook's `PARAMS` (`'default'`), kept as
a named definition so `getValue` can test `foreground !== 'default'` as the
source does. -/
def paramsForeground : LayerSpec := LayerSpec.default

/-- The background choice of the notebook's `PARAMS` (`'default'`). -/
def paramsBackground : LayerSpec := LayerSpec.default

/-- `getValue(params, sample)` of the script, statement for statement.  The
`foreground`/`background` strings of `PARAMS` are threaded via
`paramsForeground`/`paramsBackground`.  `Option` marks values JavaScript
would leave `undefined`; a `none` flowing into a blend (which JavaScript
would crash on) is unreachable for the null-ness combinations the script is
run with. -/
def getValue (params : Params) (sample : Sample) : GetValueResult :=
  let chl := params.chlIndex
  let tss := params.tssIndex
  let indices := getIndices sample
  let backgroundLayer := getBackground paramsBackground indices.natural params.backgroundOpacity
  if isWaterCall params sample = false then
    GetValueResult.layer backgroundLayer
  else if paramsForeground ≠ LayerSpec.default then
    GetValueResult.layer
      (getForeground paramsForeground backgroundLayer indices.natural params.foregroundOpacity)
  else
    let chlIndex : Option ℚ :=
      match chl with
      | none => none
      | some c => chlLookup indices.chl (if c = "default" then "mci" else c)
    let chlLayer : Option (List ℚ) :=
      match chl with
      | none => none
      | some c =>
        (chlLookup indices.chl (if c = "default" then "mci" else c)).map
          (fun q => getColors PaletteType.chl q params.chlMin params.chlMax)
    let tssIndex : Option ℚ :=
      match tss with
      | none => none
      | some t => tssLookup indices.tss (if t = "default" then "b05" else t)
    let tssLayer : Option (List ℚ) :=
      match tss with
      | none => none
      | some t =>
        (tssLookup indices.tss (if t = "default" then "b05" else t)).map
          (fun q => getColors PaletteType.tss q params.tssMin params.tssMax)
    let tssAlpha : Option ℚ :=
      tssIndex.map (fun q => getAlpha q params.tssMin params.tssMax)
    let value : Option (List ℚ) :=
      if chl.isSome && tss.isSome then
        match tssLayer, chlLayer, tssAlpha with
        | some tl, some cl, some ta => some (blend tl cl ta (100 - ta))
        | _, _, _ => none
      else if chl.isSome && !tss.isSome then
        chlLayer
      else if tss.isSome && !chl.isSome then
        match tssLayer, tssAlpha with
        | some tl, some ta => some (blend tl backgroundLayer ta (100 - ta))
        | _, _ => none
      else
        some backgroundLayer
    let foregroundAlpha : ℚ := ((Rat.floor (params.foregroundOpacity * 100) : ℤ) : ℚ)
    GetValueResult.record
      (if params.foregroundOpacity = 1 then value
       else value.map (fun v => blend v backgroundLayer foregroundAlpha (100 - foregroundAlpha)))
      chlIndex
      tssIndex

/-- The three outputs of `evaluatePixel`, named as in `setup()`; `none`
models a JavaScript `undefined` entry. -/
structure PixelOutput where
  default : Option (List ℚ)
  chlorophyllIndex : List (Option ℚ)
  sedimentIndex : List (Option ℚ)

/-- `evaluatePixel(samples)` of the script:
`let value = getValue(PARAMS, samples); return { default: value.rgb_value,
chlorophyllIndex: [value.chl_index], sedimentIndex: [value.sed_index] }`.
When `getValue` returns one of its bare-array early returns, the property
accesses `value.rgb_value` / `value.chl_index` / `value.sed_index` on the
array yield `undefined` (`none`). -/
def evaluatePixel (samples : Sample) : PixelOutput :=
  match getValue PARAMS samples with
  | GetValueResult.layer _ =>
      { default := none, chlorophyllIndex := [none], sedimentIndex := [none] }
  | GetValueResult.record rgb chl sed =>
      { default := rgb, chlorophyllIndex := [chl], sedimentIndex := [sed] }

theorem getValue_PARAMS (s : Sample) :
    getValue PARAMS s = GetValueResult.record
      (some (blend
        (getColors PaletteType.tss (getIndices s).tss.b05 PARAMS.tssMin PARAMS.tssMax)
        (getColors PaletteType.chl (getIndices s).chl.mci PARAMS.chlMin PARAMS.chlMax)
        (getAlpha (getIndices s).tss.b05 PARAMS.tssMin PARAMS.tssMax)
        (100 - getAlpha (getIndices s).tss.b05 PARAMS.tssMin PARAMS.tssMax)))
      (some (getIndices s).chl.mci)
      (some (getIndices s).tss.b05) := rfl

theorem getD_mapIdx_of_lt (f : ℕ → ℚ → ℚ) (l : List ℚ) (i : ℕ) (h : i < l.length) :
    (l.mapIdx f).getD i 0 = f i (l.getD i 0) := by
  induction l generalizing f i with
  | nil => simp at h
  | cons x xs ih =>
    rw [List.mapIdx_cons]
    cases i with
    | zero => simp
    | succ j =>
      rw [List.getD_cons_succ, List.getD_cons_succ]
      exact ih _ j (by simpa using h)

theorem mapIdx_eq_self (l : List ℚ) (f : ℕ → ℚ → ℚ) (hf : ∀ i x, f i x = x) :
    l.mapIdx f = l := by
  induction l generalizing f with
  | nil => simp
  | cons x xs ih => rw [List.mapIdx_cons, hf, ih _ (fun i x => hf (i + 1) x)]

theorem mapIdx_getD_eq (l1 : List ℚ) :
    ∀ l2 : List ℚ, l1.length = l2.length → l1.mapIdx (fun i _ => l2.getD i 0) = l2 := by
  induction l1 with
  | nil =>
    intro l2 h
    cases l2 with
    | nil => rfl
    | cons y ys => simp at h
  | cons x xs ih =>
    intro l2 h
    cases l2 with
    | nil => simp at h
    | cons y ys =>
      rw [List.mapIdx_cons]
      simp only [List.getD_cons_zero, List.getD_cons_succ]
      rw [ih ys (by simpa using h)]

/-- Claim C6: for every two layers of equal length and every opacity `a`,
`blend(layer1, layer2, a, 100-a)` computes elementwise the convex
combination `(a/100)*layer1[i] + ((100-a)/100)*layer2[i]`; in particular
`blend` with opacities `(100, 0)` returns `layer1` and with `(0, 100)`
returns `layer2`. -/
theorem blend_convex_combination (layer1 layer2 : List ℚ) (a : ℚ)
    (h : layer1.length = layer2.length) :
    (∀ i, i < layer1.length →
      (blend layer1 layer2 a (100 - a)).getD i 0 =
        a / 100 * layer1.getD i 0 + (100 - a) / 100 * layer2.getD i 0) ∧
    blend layer1 layer2 100 0 = layer1 ∧
    blend layer1 layer2 0 100 = layer2 := by
  refine ⟨fun i hi => ?_, ?_, ?_⟩
  · rw [blend, getD_mapIdx_of_lt _ _ _ hi]
    ring
  · rw [blend]
    refine mapIdx_eq_self _ _ fun i x => ?_
    rw [mul_zero, add_zero, div_mul_cancel₀ _ (by norm_num : (100 : ℚ) ≠ 0)]
  · rw [blend]
    have hfun : (fun i (num : ℚ) => num / 100 * 0 + layer2.getD i 0 / 100 * 100) =
        fun i (_ : ℚ) => layer2.getD i 0 := by
      funext i x
      rw [mul_zero, zero_add, div_mul_cancel₀ _ (by norm_num : (100 : ℚ) ≠ 0)]
    rw [hfun, mapIdx_getD_eq _ _ h]

theorem blend_convex_combination_witness :
    ([10, 20] : List ℚ).length = ([30, 40] : List ℚ).length ∧
    ((blend [10, 20] [30, 40] 25 (100 - 25)).getD 0 0 =
        25 / 100 * (([10, 20] : List ℚ).getD 0 0) +
        (100 - 25) / 100 * (([30, 40] : List ℚ).getD 0 0) ∧
      blend [10, 20] [30, 40] 100 0 = [10, 20] ∧
      blend [10, 20] [30, 40] 0 100 = [30, 40]) := by
  have hb := blend_convex_combination [10, 20] [30, 40] 25 (by decide)
  exact ⟨by decide, hb.1 0 (by decide), hb.2.1, hb.2.2⟩

/-- Claim C9: with the notebook's sediment limits `min = tssMin = 0.075`
and `max = tssMax = 0.185`, `getAlpha(index, min, max)` returns a value in
`[0, 100]`; it returns `0` exactly when `index <= min`, returns `100`
exactly when `index > min + (max-min)/2`, and returns
`100*((index - min/2)/(max-min))` otherwise; moreover the branch returning
`1` for `index >= max` is unreachable whenever `min < max`. -/
theorem getAlpha_tss_spec (index : ℚ) :
    PARAMS.tssMin = 0.075 ∧ PARAMS.tssMax = 0.185 ∧
    (0 ≤ getAlpha index 0.075 0.185 ∧ getAlpha index 0.075 0.185 ≤ 100) ∧
    (getAlpha index 0.075 0.185 = 0 ↔ index ≤ 0.075) ∧
    (getAlpha index 0.075 0.185 = 100 ↔ 0.075 + (0.185 - 0.075) / 2 < index) ∧
    (0.075 < index → index ≤ 0.075 + (0.185 - 0.075) / 2 →
      getAlpha index 0.075 0.185 = 100 * ((index - 0.075 / 2) / (0.185 - 0.075))) ∧
    (∀ mn mx i : ℚ, mn < mx → ¬ getAlphaOneBranch i mn mx) := by
  have e1 : (0.075 : ℚ) = 3 / 40 := by norm_num
  have e2 : (0.185 : ℚ) = 37 / 200 := by norm_num
  rw [e1, e2]
  have hval : ∀ q : ℚ,
      100 * ((q - (3 / 40) / 2) / (37 / 200 - 3 / 40)) = 10000 / 11 * q - 375 / 11 := by
    intro q
    ring
  have halpha : ∀ q : ℚ, getAlpha q (3 / 40) (37 / 200) =
      if 3 / 40 + (37 / 200 - 3 / 40) / 2 < q then 100
      else if q ≤ 3 / 40 then 0
      else if 37 / 200 ≤ q then 1
      else 10000 / 11 * q - 375 / 11 := by
    intro q
    rw [getAlpha, hval]
  refine ⟨by norm_num [PARAMS], by norm_num [PARAMS], ?_, ?_, ?_, ?_, ?_⟩
  · rw [halpha]
    split_ifs with h1 h2 h3
    · norm_num
    · norm_num
    · exact absurd h3 (by push_neg; linarith [h1, not_lt.mp (by exact h1)])
    · push_neg at h1 h2 h3
      constructor <;> linarith
  · rw [halpha]
    split_ifs with h1 h2 h3
    · exact ⟨fun h0 => absurd h0 (by norm_num), fun hle => absurd h1 (by push_neg; linarith)⟩
    · exact ⟨fun _ => h2, fun _ => rfl⟩
    · exact ⟨fun h0 => absurd h0 (by norm_num), fun hle => absurd hle h2⟩
    · push_neg at h1 h2 h3
      exact ⟨fun h0 => absurd h0 (by intro h0; nlinarith), fun hle => absurd hle (by push_neg; linarith)⟩
  · rw [halpha]
    split_ifs with h1 h2 h3
    · exact ⟨fun _ => h1, fun _ => rfl⟩
    · exact ⟨fun h0 => absurd h0 (by norm_num), fun hmid => absurd hmid (by push_neg; linarith)⟩
    · exact ⟨fun h0 => absurd h0 (by norm_num), fun hmid => absurd hmid h1⟩
    · push_neg at h1 h2 h3
      exact ⟨fun h0 => absurd h0 (by intro h0; nlinarith), fun hmid => absurd hmid (by push_neg; linarith)⟩
  · intro hlo hhi
    rw [halpha, hval]
    rw [if_neg (by push_neg; linarith), if_neg (by push_neg; linarith),
      if_neg (by push_neg; linarith)]
  · intro mn mx i hlt hbr
    obtain ⟨hb1, hb2, hb3⟩ := hbr
    push_neg at hb1 hb2
    linarith

theorem getAlpha_tss_spec_witness :
    (0 ≤ getAlpha (1 / 10) 0.075 0.185 ∧ getAlpha (1 / 10) 0.075 0.185 ≤ 100) ∧
    getAlpha (1 / 10) 0.075 0.185 = 100 * ((1 / 10 - 0.075 / 2) / (0.185 - 0.075)) := by
  have h := getAlpha_tss_spec (1 / 10)
  exact ⟨h.2.2.1, h.2.2.2.2.2.1 (by norm_num) (by norm_num)⟩

theorem lerpColor_length (c1 c2 : List ℚ) (t : ℚ) (h1 : c1.length = 3) (h2 : c2.length = 3) :
    (lerpColor c1 c2 t).length = 3 := by
  simp [lerpColor, List.length_zipWith, h1, h2]

theorem colorBlendGo_length (val : ℚ) (ps : List ℚ) :
    ∀ (pPrev : ℚ) (cPrev : List ℚ) (cs : List (List ℚ)),
      cPrev.length = 3 → (∀ c ∈ cs, c.length = 3) →
      (colorBlendGo val pPrev cPrev ps cs).length = 3 := by
  induction ps with
  | nil =>
    intro pPrev cPrev cs h _
    simpa [colorBlendGo] using h
  | cons p ps1 ih =>
    intro pPrev cPrev cs h hcs
    cases cs with
    | nil => simpa [colorBlendGo] using h
    | cons c cs1 =>
      simp only [colorBlendGo]
      split_ifs with hv
      · exact lerpColor_length _ _ _ h (hcs c (by simp))
      · exact ih p c cs1 (hcs c (by simp)) (fun x hx => hcs x (by simp [hx]))

theorem getColors_length (t : PaletteType) (index mn mx : ℚ) :
    (getColors t index mn mx).length = 3 := by
  cases t with
  | chl =>
    simp only [getColors, colorBlend]
    split_ifs with h
    · rfl
    · exact colorBlendGo_length _ _ _ _ _ rfl (by decide)
  | tss =>
    simp only [getColors, colorBlend]
    split_ifs with h
    · rfl
    · exact colorBlendGo_length _ _ _ _ _ rfl (by decide)

theorem blend_length (l1 l2 : List ℚ) (o1 o2 : ℚ) : (blend l1 l2 o1 o2).length = l1.length := by
  simp [blend, List.length_mapIdx]

/-- Claim C10: under the notebook's `PARAMS` (`foreground = 'default'`,
`chlIndex = 'default'`, `tssIndex = 'default'`,
`watermaskIndices = ['ndwi', 'hol']`) and with `getValue` invoked exactly
as `evaluatePixel` invokes it, `getValue` returns for every sample a record
with all three fields `rgb_value`, `chl_index` and `sed_index` defined —
the early returns yielding a bare background array are never taken — so
`evaluatePixel` always produces values for all three outputs `default`
(3 bands), `chlorophyllIndex` (1 band) and `sedimentIndex` (1 band)
declared in `setup` and requested by the notebook. -/
theorem evaluatePixel_all_outputs_defined (s : Sample) :
    ∃ rgb chl sed,
      getValue PARAMS s = GetValueResult.record (some rgb) (some chl) (some sed) ∧
      (evaluatePixel s).default = some rgb ∧ rgb.length = 3 ∧
      (evaluatePixel s).chlorophyllIndex = [some chl] ∧
      (evaluatePixel s).sedimentIndex = [some sed] := by
  refine ⟨_, _, _, getValue_PARAMS s, rfl, ?_, rfl, rfl⟩
  rw [blend_length]
  exact getColors_length _ _ _ _

/-- Claim C3: for every pixel sample on which `isWater` (as invoked by
`getValue`) returns true, the `chlorophyllIndex` output of `evaluatePixel`
equals the maximum-chlorophyll-index formula
`B05 - ((0.74-0.705)/(0.74-0.665))*B04 - ((0.705-0.665)/(0.74-0.665))*B06`,
the linear interpolation of B04 and B06 at B05's wavelength subtracted from
B05. -/
theorem chlorophyllIndex_eq_mci (s : Sample) (h : isWaterCall PARAMS s = true) :
    (evaluatePixel s).chlorophyllIndex =
      [some (s.B05 - ((0.74 - 0.705) / (0.74 - 0.665)) * s.B04 -
        ((0.705 - 0.665) / (0.74 - 0.665)) * s.B06)] := by
  have h1 : (evaluatePixel s).chlorophyllIndex = [some ((getIndices s).chl.mci)] := rfl
  have hmci : (getIndices s).chl.mci =
      s.B05 - ((0.74 - 0.705) / (0.74 - 0.665)) * s.B04 -
        ((0.705 - 0.665) / (0.74 - 0.665)) * s.B06 := by
    show s.B05 - ((0.74 - 0.705) / (0.74 - 0.665)) * s.B04 -
        (1.0 - (0.74 - 0.705) / (0.74 - 0.665)) * s.B06 = _
    norm_num
  rw [h1, hmci]

theorem chlorophyllIndex_eq_mci_witness :
    isWaterCall PARAMS ⟨1/10, 1/10, 1/10, 1/10, 1/10, 1/10, 1/10, 1/10, 1/10, 1/10⟩ = true ∧
    (evaluatePixel
        ⟨1/10, 1/10, 1/10, 1/10, 1/10, 1/10, 1/10, 1/10, 1/10, 1/10⟩).chlorophyllIndex =
      [some ((1/10 : ℚ) - ((0.74 - 0.705) / (0.74 - 0.665)) * (1/10) -
        ((0.705 - 0.665) / (0.74 - 0.665)) * (1/10))] :=
  ⟨rfl, chlorophyllIndex_eq_mci _ rfl⟩

/-- Claim C5: for every pixel sample on which `isWater` (as invoked by
`getValue`) returns true, the `sedimentIndex` output of `evaluatePixel`
equals the raw intensity of band B05 of that sample, unchanged. -/
theorem sedimentIndex_eq_B05 (s : Sample) (h : isWaterCall PARAMS s = true) :
    (evaluatePixel s).sedimentIndex = [some s.B05] := rfl

theorem sedimentIndex_eq_B05_witness :
    isWaterCall PARAMS ⟨1/5, 1/10, 1/10, 3/10, 1/10, 1/10, 1/10, 1/10, 1/10, 1/10⟩ = true ∧
    (evaluatePixel ⟨1/5, 1/10, 1/10, 3/10, 1/10, 1/10, 1/10, 1/10, 1/10, 1/10⟩).sedimentIndex =
      [some (3/10 : ℚ)] :=
  ⟨rfl, sedimentIndex_eq_B05 _ rfl⟩

theorem jsGetProp_B02 (s : Sample) : jsGetProp (sampleToJs s) "B02" = JsVal.num s.B02 := rfl

theorem jsGetProp_B04 (s : Sample) : jsGetProp (sampleToJs s) "B04" = JsVal.num s.B04 := rfl

theorem jsGetProp_B06 (s : Sample) : jsGetProp (sampleToJs s) "B06" = JsVal.num s.B06 := rfl

theorem isPureWater_sample (s : Sample) :
    isPureWater (sampleToJs s) =
      (decide (s.B03 < 0.319) && decide (s.B8A < 0.166) &&
        decide ((0.027 : ℚ) ≤ s.B03 - s.B07) && decide (s.B09 - s.B11 < 0.021)) := rfl

theorem jsDiv_num (x y : ℚ) (h : y ≠ 0) :
    jsDiv (JsVal.num x) (JsVal.num y) = JsVal.num (x / y) := by
  simp only [jsDiv, if_neg h]

theorem isCloud_sample (s : Sample) (h : s.B04 + s.B06 ≠ 0) :
    isCloud (sampleToJs s) (JsVal.num PARAMS.cloudMax) =
      (decide (1 < (s.B02 - 0.175) / (0.39 - 0.175)) ||
        (decide (0 < (s.B02 - 0.175) / (0.39 - 0.175)) &&
          decide (PARAMS.cloudMax < (s.B04 - s.B06) / (s.B04 + s.B06)))) := by
  have h2 : ((0.39 : ℚ) - 0.175) ≠ 0 := by norm_num
  simp only [isCloud, jsGetProp_B02, jsGetProp_B04, jsGetProp_B06, jsSub, jsAdd,
    jsDiv_num _ _ h2, jsDiv_num _ _ h, jsGt, jsLt]

theorem blend_getD (l1 l2 : List ℚ) (o1 o2 : ℚ) (i : ℕ) (h : i < l1.length) :
    (blend l1 l2 o1 o2).getD i 0 = l1.getD i 0 / 100 * o1 + l2.getD i 0 / 100 * o2 := by
  rw [blend, getD_mapIdx_of_lt _ _ _ h]

theorem colorBlend_second (val p1 p2 : ℚ) (ps : List ℚ) (c1 c2 : List ℚ) (cs : List (List ℚ))
    (h1 : ¬val ≤ p1) (h2 : val ≤ p2) :
    colorBlend val (p1 :: p2 :: ps) (c1 :: c2 :: cs) =
      lerpColor c1 c2 ((val - p1) / (p2 - p1)) := by
  simp only [colorBlend, colorBlendGo, if_neg h1, if_pos h2]

theorem tss_layer_tenth :
    getColors PaletteType.tss (1/10) PARAMS.tssMin PARAMS.tssMax =
      [18317/22000, 8061/11000, 12579/22000] := by
  show colorBlend (1/10) [PARAMS.tssMin, PARAMS.tssMax]
      [[0.961, 0.871, 0.702], [0.396, 0.263, 0.129]] = _
  rw [colorBlend_second _ _ _ _ _ _ _ (by norm_num [PARAMS]) (by norm_num [PARAMS])]
  simp only [lerpColor, List.zipWith]
  norm_num [PARAMS]

theorem chl_layer_zero :
    getColors PaletteType.chl 0 PARAMS.chlMin PARAMS.chlMax =
      [17/6875, 851/6875, 101/500] := by
  show colorBlend 0
      [PARAMS.chlMin, PARAMS.chlMin + (PARAMS.chlMax - PARAMS.chlMin) / 3,
        (PARAMS.chlMin + PARAMS.chlMax) / 2, PARAMS.chlMax - (PARAMS.chlMax - PARAMS.chlMin) / 3,
        PARAMS.chlMax]
      [[0.0034, 0.0142, 0.163], [0, 0.416, 0.306], [0.486, 0.98, 0],
        [0.9465, 0.8431, 0.1048], [1, 0, 0]] = _
  rw [colorBlend_second _ _ _ _ _ _ _ (by norm_num [PARAMS]) (by norm_num [PARAMS])]
  simp only [lerpColor, List.zipWith]
  norm_num [PARAMS]

theorem tss_alpha_tenth : getAlpha (1/10) PARAMS.tssMin PARAMS.tssMax = 625/11 := by
  rw [getAlpha, if_neg (by norm_num [PARAMS]), if_neg (by norm_num [PARAMS]),
    if_neg (by norm_num [PARAMS])]
  norm_num [PARAMS]

/-- Claim C1 (code-bug evidence): the sample with B02=0.2, B03=0.1,
B04=0.1, B05=0.1, B06=0.1, B07=0.1, B08=0.3, B8A=0.1, B09=0.1, B11=0.1
fails both configured water-mask tests — its NDWI (-0.5) is below
`waterMax = 0` and the Hollstein pure-water test is false — yet `isWater`
as invoked by `getValue` still returns true (the call passes four arguments
to the five-parameter function, so the selected-index list binds the number
`0` and the test loop never runs), and the `default` output of
`evaluatePixel` is the blended chlorophyll/sediment visualization, not the
background (natural-colour) layer the claim requires. -/
theorem water_mask_failure_not_masked :
    (getIndices ⟨1/5, 1/10, 1/10, 1/10, 1/10, 1/10, 3/10, 1/10, 1/10, 1/10⟩).watermask.ndwi <
        PARAMS.waterMax ∧
    isPureWater (sampleToJs ⟨1/5, 1/10, 1/10, 1/10, 1/10, 1/10, 3/10, 1/10, 1/10, 1/10⟩) =
        false ∧
    isWaterCall PARAMS ⟨1/5, 1/10, 1/10, 1/10, 1/10, 1/10, 3/10, 1/10, 1/10, 1/10⟩ = true ∧
    (evaluatePixel ⟨1/5, 1/10, 1/10, 1/10, 1/10, 1/10, 3/10, 1/10, 1/10, 1/10⟩).default ≠
      some (getBackground paramsBackground
        (getIndices ⟨1/5, 1/10, 1/10, 1/10, 1/10, 1/10, 3/10, 1/10, 1/10, 1/10⟩).natural
        PARAMS.backgroundOpacity) := by
  refine ⟨by norm_num [getIndices, PARAMS], by rw [isPureWater_sample]; norm_num, rfl, ?_⟩
  have hd : (evaluatePixel ⟨1/5, 1/10, 1/10, 1/10, 1/10, 1/10, 3/10, 1/10, 1/10, 1/10⟩).default =
      some (blend
        (getColors PaletteType.tss (1/10) PARAMS.tssMin PARAMS.tssMax)
        (getColors PaletteType.chl
          ((getIndices ⟨1/5, 1/10, 1/10, 1/10, 1/10, 1/10, 3/10, 1/10, 1/10, 1/10⟩).chl.mci)
          PARAMS.chlMin PARAMS.chlMax)
        (getAlpha (1/10) PARAMS.tssMin PARAMS.tssMax)
        (100 - getAlpha (1/10) PARAMS.tssMin PARAMS.tssMax)) := rfl
  have hmci : (getIndices ⟨1/5, 1/10, 1/10, 1/10, 1/10, 1/10, 3/10, 1/10, 1/10, 1/10⟩).chl.mci =
      0 := by norm_num [getIndices]
  have hbg : getBackground paramsBackground
      (getIndices ⟨1/5, 1/10, 1/10, 1/10, 1/10, 1/10, 3/10, 1/10, 1/10, 1/10⟩).natural
      PARAMS.backgroundOpacity =
      (getIndices ⟨1/5, 1/10, 1/10, 1/10, 1/10, 1/10, 3/10, 1/10, 1/10, 1/10⟩).natural := rfl
  rw [hd, hmci, tss_layer_tenth, chl_layer_zero, tss_alpha_tenth, hbg]
  intro hEq
  have h2 := congrArg (fun o => (o.getD []).getD 1 0) hEq
  simp only [Option.getD_some] at h2
  rw [blend_getD _ _ _ _ 1 (by norm_num)] at h2
  simp only [getIndices, List.getD_cons_succ, List.getD_cons_zero] at h2
  norm_num at h2

/-- Claim C4 (code-bug evidence): the `rlh` index of `getIndices` is not
the reflectance line height
`B05 - (B04 + (B07-B04)*((0.705-0.665)/(0.783-0.665)))`: at the sample with
B04 = 0, B05 = 0, B07 = 1 the code computes -1/118 while the baseline
interpolation formula gives -20/59; the source multiplies `sample.B04`
alone, instead of `(sample.B07 - sample.B04)`, by `(0.705-0.665)*1000.0`. -/
theorem rlh_deviates_from_baseline :
    (getIndices ⟨0, 0, 0, 0, 0, 1, 0, 0, 0, 0⟩).chl.rlh = -1/118 ∧
    (0 : ℚ) - ((0 : ℚ) + ((1 : ℚ) - 0) * ((0.705 - 0.665) / (0.783 - 0.665))) = -20/59 ∧
    (getIndices ⟨0, 0, 0, 0, 0, 1, 0, 0, 0, 0⟩).chl.rlh ≠
      (0 : ℚ) - ((0 : ℚ) + ((1 : ℚ) - 0) * ((0.705 - 0.665) / (0.783 - 0.665))) :=
  ⟨by norm_num [getIndices], by norm_num, by norm_num [getIndices]⟩

/-- Claim C2 (counterexample): the sample with B02=0.5, B03=0.3, B04=0.1,
B05=0.1, B06=0.1, B07=0.1, B08=0.1, B8A=0.1, B09=0.1, B11=0.1 is detected
as cloud by the Braaten-Cohen-Yang test of `isCloud` (its B02 exceeds
0.39), yet the rendered `default` output is the blended
chlorophyll/sediment visualization and not the background layer: under the
notebook's `PARAMS` the `bcy` index is not selected (and the four-argument
`isWater` call disables masking entirely), so cloud masking is not among
the masking operations applied. -/
theorem cloud_pixel_not_masked :
    isCloud (sampleToJs ⟨1/2, 3/10, 1/10, 1/10, 1/10, 1/10, 1/10, 1/10, 1/10, 1/10⟩)
        (JsVal.num PARAMS.cloudMax) = true ∧
    (evaluatePixel ⟨1/2, 3/10, 1/10, 1/10, 1/10, 1/10, 1/10, 1/10, 1/10, 1/10⟩).default ≠
      some (getBackground paramsBackground
        (getIndices ⟨1/2, 3/10, 1/10, 1/10, 1/10, 1/10, 1/10, 1/10, 1/10, 1/10⟩).natural
        PARAMS.backgroundOpacity) := by
  refine ⟨by rw [isCloud_sample _ (by norm_num)]; norm_num [PARAMS], ?_⟩
  have hd : (evaluatePixel ⟨1/2, 3/10, 1/10, 1/10, 1/10, 1/10, 1/10, 1/10, 1/10, 1/10⟩).default =
      some (blend
        (getColors PaletteType.tss (1/10) PARAMS.tssMin PARAMS.tssMax)
        (getColors PaletteType.chl
          ((getIndices ⟨1/2, 3/10, 1/10, 1/10, 1/10, 1/10, 1/10, 1/10, 1/10, 1/10⟩).chl.mci)
          PARAMS.chlMin PARAMS.chlMax)
        (getAlpha (1/10) PARAMS.tssMin PARAMS.tssMax)
        (100 - getAlpha (1/10) PARAMS.tssMin PARAMS.tssMax)) := rfl
  have hmci : (getIndices ⟨1/2, 3/10, 1/10, 1/10, 1/10, 1/10, 1/10, 1/10, 1/10, 1/10⟩).chl.mci =
      0 := by norm_num [getIndices]
  have hbg : getBackground paramsBackground
      (getIndices ⟨1/2, 3/10, 1/10, 1/10, 1/10, 1/10, 1/10, 1/10, 1/10, 1/10⟩).natural
      PARAMS.backgroundOpacity =
      (getIndices ⟨1/2, 3/10, 1/10, 1/10, 1/10, 1/10, 1/10, 1/10, 1/10, 1/10⟩).natural := rfl
  rw [hd, hmci, tss_layer_tenth, chl_layer_zero, tss_alpha_tenth, hbg]
  intro hEq
  have h2 := congrArg (fun o => (o.getD []).getD 1 0) hEq
  simp only [Option.getD_some] at h2
  rw [blend_getD _ _ _ _ 1 (by norm_num)] at h2
  simp only [getIndices, List.getD_cons_succ, List.getD_cons_zero] at h2
  norm_num at h2

/-- Claim C2 (amended): `isCloud` implements the Braaten-Cohen-Yang test,
but under the notebook's `PARAMS` (`watermaskIndices = ['ndwi', 'hol']`,
without `'bcy'`, and an `isWater` call whose argument arity disables
masking altogether) cloud detection never masks a pixel: even for a sample
flagged as cloud, `getValue` does not take the background-masking early
return and still produces the full visualization record. -/
theorem cloud_masking_not_applied (s : Sample)
    (h : isCloud (sampleToJs s) (JsVal.num PARAMS.cloudMax) = true) :
    ∃ rgb chl sed, getValue PARAMS s = GetValueResult.record rgb chl sed :=
  ⟨_, _, _, getValue_PARAMS s⟩

theorem cloud_masking_not_applied_witness :
    isCloud (sampleToJs ⟨1/2, 3/10, 1/10, 1/10, 1/10, 1/10, 1/10, 1/10, 1/10, 1/10⟩)
        (JsVal.num PARAMS.cloudMax) = true ∧
    ∃ rgb chl sed,
      getValue PARAMS ⟨1/2, 3/10, 1/10, 1/10, 1/10, 1/10, 1/10, 1/10, 1/10, 1/10⟩ =
        GetValueResult.record rgb chl sed := by
  have hc : isCloud (sampleToJs ⟨1/2, 3/10, 1/10, 1/10, 1/10, 1/10, 1/10, 1/10, 1/10, 1/10⟩)
      (JsVal.num PARAMS.cloudMax) = true := by
    rw [isCloud_sample _ (by norm_num)]
    norm_num [PARAMS]
  exact ⟨hc, cloud_masking_not_applied _ hc⟩

/-- The output MIME type passed to `SentinelHubRequest.output_response`. -/
inductive MimeTypeSpec where
  | TIFF : MimeTypeSpec
deriving DecidableEq

/-- The mosaicking order passed to `SentinelHubRequest.input_data`. -/
inductive MosaickingOrderSpec where
  | LEAST_CC : MosaickingOrderSpec
deriving DecidableEq

/-- Modelled from the spec: the SDK's `DataCollection` value is external
code; the notebook's `DataCollection.SENTINEL2_L2A.define_from("s2l2a", ...)`
call is modelled as the base collection identifier together with the name
it is redefined under. -/
inductive DataCollectionSpec where
  | defineFrom (base : String) (name : String) : DataCollectionSpec
deriving DecidableEq

/-- One entry of the request's `input_data` list. -/
structure InputDataSpec where
  data_collection : DataCollectionSpec
  time_interval : String × String
  mosaicking_order : MosaickingOrderSpec
deriving DecidableEq

/-- One entry of the request's `responses` list
(`SentinelHubRequest.output_response(identifier, format)`). -/
structure ResponseSpec where
  identifier : String
  format : MimeTypeSpec
deriving DecidableEq

/-- Modelled from the spec: the SDK's `BBox` and its CRS transformation are
external code; a bounding box is modelled as the WGS84 coordinate tuple it
was built from, optionally wrapped by the `transform` call with the target
CRS code. -/
inductive BBoxSpec where
  | wgs84 (lon1 lat1 lon2 lat2 : ℚ) : BBoxSpec
  | transformed (b : BBoxSpec) (crs : ℕ) : BBoxSpec
deriving DecidableEq

/-- The evalscript payload: the notebook passes the `custom_script` text
(the UWQV script embedded above). -/
inductive EvalscriptRef where
  | customScript : EvalscriptRef
deriving DecidableEq

/-- The authentication configuration object (`SHConfig` with the CDSE
client credentials and endpoint URLs), opaque external state. -/
inductive ConfigRef where
  | cdse : ConfigRef
deriving DecidableEq

/-- Modelled from the spec: the SDK's `SentinelHubRequest` constructor is
external code; the request descriptor is modelled as the record of the
keyword arguments the notebook passes it.  `data_folder` is `none` when the
caller omits it (the SDK default). -/
structure SentinelHubRequestSpec where
  evalscript : EvalscriptRef
  input_data : List InputDataSpec
  responses : List ResponseSpec
  bbox : BBoxSpec
  resolution : ℚ × ℚ
  config : ConfigRef
  data_folder : Option String := none
deriving DecidableEq

/-- `taihu_lake_bbox`:
`BBox((119.7301, 30.919636, 120.684429, 31.661304), crs=CRS.WGS84).transform(3035)`. -/
def taihu_lake_bbox : BBoxSpec :=
  BBoxSpec.transformed (BBoxSpec.wgs84 119.7301 30.919636 120.684429 31.661304) 3035

/-- `request_UWQV`, the single `SentinelHubRequest` the notebook builds:
evalscript, one Sentinel-2 L2A input with the September 2023 time interval
and least-cloud-coverage mosaicking, three TIFF responses, the transformed
Taihu bounding box, the (100, 100) resolution, the CDSE config, and
`data_folder="./data"`. -/
def request_UWQV : SentinelHubRequestSpec :=
  { evalscript := EvalscriptRef.customScript
    input_data := [{ data_collection := DataCollectionSpec.defineFrom "SENTINEL2_L2A" "s2l2a"
                     time_interval := ("2023-09-01", "2023-09-30")
                     mosaicking_order := MosaickingOrderSpec.LEAST_CC }]
    responses := [{ identifier := "default", format := MimeTypeSpec.TIFF },
                  { identifier := "chlorophyllIndex", format := MimeTypeSpec.TIFF },
                  { identifier := "sedimentIndex", format := MimeTypeSpec.TIFF }]
    bbox := taihu_lake_bbox
    resolution := (100, 100)
    config := ConfigRef.cdse
    data_folder := some "./data" }

/-- Claim C7 (counterexample): the request does not bundle exactly the
components the claim enumerates — the notebook's constructor call also
passes `data_folder="./data"`, so `request_UWQV` differs from the
descriptor holding only the enumerated components (with the SDK's default
of no data folder). -/
theorem request_bundles_more_than_claimed :
    request_UWQV ≠
      { evalscript := EvalscriptRef.customScript
        input_data := [{ data_collection := DataCollectionSpec.defineFrom "SENTINEL2_L2A" "s2l2a"
                         time_interval := ("2023-09-01", "2023-09-30")
                         mosaicking_order := MosaickingOrderSpec.LEAST_CC }]
        responses := [{ identifier := "default", format := MimeTypeSpec.TIFF },
                      { identifier := "chlorophyllIndex", format := MimeTypeSpec.TIFF },
                      { identifier := "sedimentIndex", format := MimeTypeSpec.TIFF }]
        bbox := taihu_lake_bbox
        resolution := (100, 100)
        config := ConfigRef.cdse } := by
  intro h
  have hdf := congrArg SentinelHubRequestSpec.data_folder h
  simp only [request_UWQV] at hdf
  exact Option.noConfusion hdf

/-- Claim C7 (amended): the request object bundles exactly the evalscript
text, one Sentinel-2 L2A input collection with time interval 2023-09-01 to
2023-09-30 and least-cloud-coverage mosaicking order, three TIFF output
responses named `default`, `chlorophyllIndex` and `sedimentIndex`, the
Taihu lake bounding box transformed to CRS 3035, the resolution (100, 100),
the authentication config, and additionally the `./data` download folder;
it is built once (a single immutable definition, as in the notebook's
straight-line code) and consumed unchanged by the single external call. -/
theorem request_UWQV_components :
    request_UWQV.evalscript = EvalscriptRef.customScript ∧
    request_UWQV.input_data =
      [{ data_collection := DataCollectionSpec.defineFrom "SENTINEL2_L2A" "s2l2a"
         time_interval := ("2023-09-01", "2023-09-30")
         mosaicking_order := MosaickingOrderSpec.LEAST_CC }] ∧
    request_UWQV.responses =
      [{ identifier := "default", format := MimeTypeSpec.TIFF },
       { identifier := "chlorophyllIndex", format := MimeTypeSpec.TIFF },
       { identifier := "sedimentIndex", format := MimeTypeSpec.TIFF }] ∧
    request_UWQV.bbox =
      BBoxSpec.transformed (BBoxSpec.wgs84 119.7301 30.919636 120.684429 31.661304) 3035 ∧
    request_UWQV.resolution = (100, 100) ∧
    request_UWQV.config = ConfigRef.cdse ∧
    request_UWQV.data_folder = some "./data" :=
  ⟨rfl, rfl, rfl, rfl, rfl, rfl, rfl⟩

/-- The errors the external SDK call can raise, per the spec's error
handling design (modelled from the spec: the SDK itself is external
code). -/
inductive SdkError where
  | authenticationFailure : SdkError
  | networkFailure : SdkError
  | invalidScript : SdkError
  | quotaExceeded : SdkError
deriving DecidableEq

/-- The notebook's download cell
`download_data = request_UWQV.get_data(save_data=True)[0]` as a function of
the SDK call's outcome: the `[0]` subscript is applied to a successful
result (an empty result, on which Python would raise `IndexError`, is
modelled as `none`); there is no `try`/`except` anywhere in the notebook,
so an exception outcome passes through untouched. -/
def download_cell {α : Type} (get_data_result : Except SdkError (List α)) :
    Except SdkError (Option α) :=
  get_data_result.map List.head?

/-- Claim C8: the notebook's own code contains no exception handler: every
exception raised by the external SDK call `get_data` (authentication
failure, network failure, invalid script, quota exceeded) propagates to the
caller unchanged, and the notebook performs no retry, recovery, or
partial-failure handling of its own. -/
theorem get_data_error_propagates (e : SdkError) :
    download_cell (Except.error e : Except SdkError (List (List ℚ))) = Except.error e := rfl
